import Mathlib

/-!
Shallow embedding of `solar_houses_detector.py` (class `SolarHousesDetector`).

Modelling conventions:
* Python floats are embedded as `ℚ`; `round(x, 1)` is embedded as `pyRound1`
  (round-half-to-even, as Python's `round`).
* Python's substring test `p in s` is embedded as `charsContain` over the
  character lists of the strings.
* Calls to `random.randint` / `random.uniform` / `random.choice` /
  `random.random` are embedded as oracle inputs: each property index `i`
  receives its own bundle `PropRand` of drawn values, and the scorer
  receives a bundle `ScoreRand`; the claims under study do not depend on
  the distribution of the draws, only on how the code uses them.
* The HTTP request made by `download_house_image` is embedded as an input
  `HttpOutcome` (a transport-level exception, or a response with a status
  code and a body).
-/

/-- Python `needle in hay` (string containment), prefix test at the head. -/
def charsBeginWith : List Char → List Char → Bool
  | [], _ => true
  | _ :: _, [] => false
  | a :: as, b :: bs => a = b && charsBeginWith as bs

/-- Python `needle in hay` (string containment) over character lists. -/
def charsContain (needle : List Char) : List Char → Bool
  | [] => needle.isEmpty
  | c :: rest => charsBeginWith needle (c :: rest) || charsContain needle rest

/-- Python `needle in hay` on strings. -/
def strContains (hay needle : String) : Bool :=
  charsContain needle.toList hay.toList

/-- Python `s.lower()`: lower-case each character (as with
`Char.toLower`, only basic latin letters are affected; the region keys
are ASCII). -/
def strLower (s : String) : String :=
  ⟨s.toList.map Char.toLower⟩

/-- Python `round` to the nearest integer: round-half-to-even. -/
def pyRoundInt (y : ℚ) : ℤ :=
  let f : ℤ := ⌊y⌋
  let r : ℚ := y - f
  if r < 1/2 then f
  else if 1/2 < r then f + 1
  else if f % 2 = 0 then f else f + 1

/-- Python `round(x, 1)`. -/
def pyRound1 (x : ℚ) : ℚ :=
  (pyRoundInt (x * 10) : ℚ) / 10

/-- One curated address entry of `_get_location_data` (dicts with keys
`address`, `has_solar`, `lat`, `lon`). -/
structure AddressEntry where
  address : String
  has_solar : Bool
  lat : ℚ
  lon : ℚ
  deriving DecidableEq, Repr, Inhabited

/-- The `bounds` dict of `_get_location_data`. -/
structure Bounds where
  north : ℚ
  south : ℚ
  east : ℚ
  west : ℚ
  deriving DecidableEq, Repr

/-- The dict returned by `_get_location_data`. -/
structure LocationData where
  bounds : Bounds
  addresses : List AddressEntry
  cities : List String
  deriving DecidableEq, Repr

/-- The `"st. tammany"` branch of `_get_location_data`. -/
def tammanyData : LocationData where
  bounds := { north := 30.7, south := 30.1, east := -89.7, west := -90.5 }
  addresses :=
    [ ⟨"1234 Tyler St, Covington, LA 70433", true, 30.4755, -90.1009⟩,
      ⟨"5678 Jefferson Ave, Covington, LA 70433", true, 30.4789, -90.0956⟩,
      ⟨"9012 Boston St, Covington, LA 70433", false, 30.4723, -90.1023⟩,
      ⟨"3456 Florida St, Covington, LA 70433", true, 30.4812, -90.0887⟩,
      ⟨"7890 Lakeshore Dr, Mandeville, LA 70448", true, 30.3589, -90.0654⟩,
      ⟨"2345 Girod St, Mandeville, LA 70448", false, 30.3623, -90.0712⟩,
      ⟨"6789 Monroe St, Mandeville, LA 70448", true, 30.3556, -90.0598⟩,
      ⟨"1234 Front St, Slidell, LA 70458", false, 30.2756, -89.7812⟩,
      ⟨"5678 2nd St, Slidell, LA 70458", true, 30.2789, -89.7756⟩,
      ⟨"9012 3rd St, Slidell, LA 70458", false, 30.2723, -89.7834⟩ ]
  cities := ["Covington", "Mandeville", "Slidell", "Hammond", "Abita Springs",
             "Lacombe", "Pearl River", "Folsom"]

/-- The `"new orleans"` branch of `_get_location_data`. -/
def nolaData : LocationData where
  bounds := { north := 30.1, south := 29.8, east := -89.8, west := -90.2 }
  addresses :=
    [ ⟨"1234 Magazine St, New Orleans, LA 70130", true, 29.9258, -90.0801⟩,
      ⟨"5678 St. Charles Ave, New Orleans, LA 70130", false, 29.9289, -90.0756⟩,
      ⟨"9012 Canal St, New Orleans, LA 70112", true, 29.9623, -90.0723⟩,
      ⟨"3456 Bourbon St, New Orleans, LA 70116", false, 29.9589, -90.0654⟩,
      ⟨"7890 Royal St, New Orleans, LA 70116", true, 29.9612, -90.0623⟩ ]
  cities := ["New Orleans", "Metairie", "Kenner", "Chalmette", "Harvey"]

/-- The `"baton rouge"` branch of `_get_location_data`. -/
def batonRougeData : LocationData where
  bounds := { north := 30.6, south := 30.3, east := -91.0, west := -91.3 }
  addresses :=
    [ ⟨"1234 Government St, Baton Rouge, LA 70802", true, 30.4515, -91.1873⟩,
      ⟨"5678 Perkins Rd, Baton Rouge, LA 70810", false, 30.4089, -91.1456⟩,
      ⟨"9012 College Dr, Baton Rouge, LA 70808", true, 30.4123, -91.1523⟩,
      ⟨"3456 Highland Rd, Baton Rouge, LA 70808", false, 30.4189, -91.1554⟩ ]
  cities := ["Baton Rouge", "Baker", "Zachary", "Central", "Denham Springs"]

/-- The fallback (`else`) branch of `_get_location_data`. -/
def fallbackData (location : String) : LocationData where
  bounds := { north := 30.5, south := 30.0, east := -90.0, west := -90.5 }
  addresses :=
    [ ⟨"1234 Main St, " ++ location, true, 30.4, -90.1⟩,
      ⟨"5678 Oak Ave, " ++ location, false, 30.41, -90.11⟩,
      ⟨"9012 Pine St, " ++ location, true, 30.39, -90.09⟩ ]
  cities := [((location.splitOn ",").headD "").trim]

/-- `SolarHousesDetector._get_location_data`. -/
def getLocationData (location : String) : LocationData :=
  let location_lower := strLower location
  if strContains location_lower "st. tammany" || strContains location_lower "st tammany" then
    tammanyData
  else if strContains location_lower "new orleans" || strContains location_lower "nola" then
    nolaData
  else if strContains location_lower "baton rouge" then
    batonRougeData
  else
    fallbackData location

/-- A property record, as built by `generate_realistic_properties`. -/
structure PropertyRecord where
  property_id : String
  owner_name : String
  address : String
  latitude : ℚ
  longitude : ℚ
  has_solar_panels : Bool
  estimated_panel_count : ℕ
  panel_area_sq_meters : ℚ
  installation_year : Option ℕ
  system_size_kw : ℚ
  estimated_savings_annual : ℕ
  property_value : ℕ
  roof_type : String
  roof_age_years : ℕ
  deriving DecidableEq, Repr, Inhabited

/-- Big-endian decimal digit characters of `n` (Python's `str(n)` for a
nonnegative integer). -/
def decChars (n : ℕ) : List Char :=
  if n = 0 then ['0'] else (Nat.digits 10 n).reverse.map Nat.digitChar

/-- Python `f"{n:06d}"`: the decimal form of `n` left-padded with `'0'` to
width 6. -/
def pyFormat06 (n : ℕ) : String :=
  ⟨List.replicate (6 - (decChars n).length) '0' ++ decChars n⟩

/-- Python `f"PROP_{i+1:06d}"` for loop index `i`. -/
def propertyIdOf (i : ℕ) : String :=
  "PROP_" ++ pyFormat06 (i + 1)

/-- The random draws consumed while building the property at one loop index
(oracle model of the `random.*` calls in `generate_realistic_properties`). -/
structure PropRand where
  panelCount : ℕ      -- random.randint(15, 45)
  panelArea : ℚ       -- random.uniform(25, 75)
  instYear : ℕ        -- random.randint(2018, 2023)
  sizeKw : ℚ          -- random.uniform(5.0, 15.0), before round(·, 1)
  savings : ℕ         -- random.randint(800, 2500)
  propValue : ℕ       -- random.randint(200000, 600000)
  roofType : String   -- random.choice of the 4 roof types
  roofAge : ℕ         -- random.randint(5, 25)
  lat : ℚ             -- random.uniform(bounds south, north)
  lon : ℚ             -- random.uniform(bounds west, east)
  solarDraw : Bool    -- random.random() < 0.3
  streetNum : ℕ       -- random.randint(100, 9999)
  streetName : String -- random.choice of street names
  city : String       -- random.choice(location_data cities)
  deriving Repr

/-- The body of the `for i in range(count)` loop of
`generate_realistic_properties`: one `property_data` dict. -/
def genProperty (locationData : LocationData) (r : PropRand) (i : ℕ) :
    PropertyRecord :=
  if h : i < locationData.addresses.length then
    let addrData := locationData.addresses.get ⟨i, h⟩
    { property_id := propertyIdOf i
      owner_name := "Property Owner " ++ toString (i + 1)
      address := addrData.address
      latitude := addrData.lat
      longitude := addrData.lon
      has_solar_panels := addrData.has_solar
      estimated_panel_count := if addrData.has_solar then r.panelCount else 0
      panel_area_sq_meters := if addrData.has_solar then r.panelArea else 0
      installation_year := if addrData.has_solar then some r.instYear else none
      system_size_kw := if addrData.has_solar then pyRound1 r.sizeKw else 0
      estimated_savings_annual := if addrData.has_solar then r.savings else 0
      property_value := r.propValue
      roof_type := r.roofType
      roof_age_years := r.roofAge }
  else
    let has_solar := r.solarDraw
    { property_id := propertyIdOf i
      owner_name := "Property Owner " ++ toString (i + 1)
      address := toString r.streetNum ++ " " ++ r.streetName ++ " St, " ++ r.city
      latitude := r.lat
      longitude := r.lon
      has_solar_panels := has_solar
      estimated_panel_count := if has_solar then r.panelCount else 0
      panel_area_sq_meters := if has_solar then r.panelArea else 0
      installation_year := if has_solar then some r.instYear else none
      system_size_kw := if has_solar then pyRound1 r.sizeKw else 0
      estimated_savings_annual := if has_solar then r.savings else 0
      property_value := r.propValue
      roof_type := r.roofType
      roof_age_years := r.roofAge }

/-- `SolarHousesDetector.generate_realistic_properties`, with the per-index
random draws supplied by the oracle `rv`. -/
def generateRealisticProperties (rv : ℕ → PropRand) (count : ℕ)
    (location : String) : List PropertyRecord :=
  (List.range count).map fun i => genProperty (getLocationData location) (rv i) i

/-- The `analysis` dict returned by `analyze_solar_potential`. -/
structure Analysis where
  solar_potential_score : ℕ
  recommended_system_size_kw : ℚ
  estimated_installation_cost : ℚ
  estimated_annual_savings : ℚ
  payback_period_years : ℚ
  roi_percentage : ℚ
  deriving DecidableEq, Repr, Inhabited

/-- The random draws consumed by the non-solar branch of
`analyze_solar_potential` (oracle model). -/
structure ScoreRand where
  sizeKw : ℚ   -- random.uniform(6.0, 12.0), before round(·, 1)
  savings : ℕ  -- random.randint(600, 1800)
  deriving Repr

/-- The `roof_bonus` dict lookup `roof_bonus.get(roof_type, 0)`. -/
def roofBonus (roofType : String) : ℕ :=
  if roofType = "Asphalt Shingle" then 20
  else if roofType = "Metal" then 25
  else if roofType = "Tile" then 15
  else if roofType = "Slate" then 10
  else 0

/-- `SolarHousesDetector.analyze_solar_potential`, with the random draws of
the non-solar branch supplied by the oracle `r`. -/
def analyzeSolarPotential (r : ScoreRand) (p : PropertyRecord) : Analysis :=
  if p.has_solar_panels then
    { solar_potential_score := 100
      recommended_system_size_kw := p.system_size_kw
      estimated_installation_cost := p.system_size_kw * 3000
      estimated_annual_savings := (p.estimated_savings_annual : ℚ)
      payback_period_years := 0
      roi_percentage := 100 }
  else
    let base0 : ℕ := 50
    let base1 : ℕ := base0 + roofBonus p.roof_type
    let base2 : ℕ := base1 +
      (if p.roof_age_years < 10 then 15 else if p.roof_age_years < 20 then 10 else 0)
    let base3 : ℕ := base2 +
      (if p.property_value > 400000 then 15 else if p.property_value > 300000 then 10 else 0)
    let size : ℚ := pyRound1 r.sizeKw
    let cost : ℚ := size * 3000
    let savings : ℚ := (r.savings : ℚ)
    { solar_potential_score := min 100 base3
      recommended_system_size_kw := size
      estimated_installation_cost := cost
      estimated_annual_savings := savings
      payback_period_years := pyRound1 (cost / savings)
      roi_percentage := pyRound1 (savings * 20 / cost * 100) }

/-- Outcome of the `requests.get` call (and the subsequent file write) in
`download_house_image`: either a transport-level exception, or a response
with a status code and a body. -/
inductive HttpOutcome where
  | exn (message : String)
  | response (statusCode : ℕ) (content : String)
  deriving DecidableEq, Repr

/-- `SolarHousesDetector.download_house_image`: the network effect is the
input `outcome`; the function returns the saved file path on HTTP 200 and
`none` on any other status or any exception. -/
def downloadHouseImage (outputDir : String) (outcome : HttpOutcome)
    (latitude longitude : ℚ) (zoomLevel : ℕ := 19) : Option String :=
  match outcome with
  | .exn _ => none
  | .response statusCode _ =>
    if statusCode = 200 then
      let filename :=
        "house_" ++ toString latitude ++ "_" ++ toString longitude ++
          "_zoom" ++ toString zoomLevel ++ ".png"
      some (outputDir ++ "/house_images/" ++ filename)
    else
      none

/-- One row of the `results` list built by `process_properties`
(`{**property_data, 'house_image_path': ..., 'image_downloaded': ...,
**solar_analysis, 'processed_at': ...}`). -/
structure ResultRecord where
  prop : PropertyRecord
  house_image_path : Option String
  image_downloaded : Bool
  analysis : Analysis
  processed_at : String
  deriving DecidableEq, Repr, Inhabited

/-- Which output artifacts `process_properties` wrote (all gated on
`if not results_df.empty`). -/
structure SideEffects where
  wroteResultsCsv : Bool
  wroteSummaryCsv : Bool
  generatedReport : Bool
  createdMap : Bool
  deriving DecidableEq, Repr

/-- The body of the per-property loop of `process_properties`: fetch the
image, analyze the property, and merge the result row. -/
def processOneProperty (fetch : ℚ → ℚ → Option String)
    (scoreRv : ℕ → ScoreRand) (now : ℕ → String) (i : ℕ)
    (propertyData : PropertyRecord) : ResultRecord :=
  let houseImagePath := fetch propertyData.latitude propertyData.longitude
  let solarAnalysis := analyzeSolarPotential (scoreRv i) propertyData
  { prop := propertyData
    house_image_path := houseImagePath
    image_downloaded := houseImagePath.isSome
    analysis := solarAnalysis
    processed_at := now i }

/-- The `for i, property_data in enumerate(properties)` loop of
`process_properties`, accumulating `results` (the loop body never raises in
this embedding, so no row is dropped by the `except / continue` arm). -/
def processLoop (fetch : ℚ → ℚ → Option String) (scoreRv : ℕ → ScoreRand)
    (now : ℕ → String) : ℕ → List PropertyRecord → List ResultRecord
  | _, [] => []
  | i, p :: rest =>
    processOneProperty fetch scoreRv now i p ::
      processLoop fetch scoreRv now (i + 1) rest

/-- `SolarHousesDetector.process_properties`: generate the properties, run
the per-property loop, and gate CSV writes, report generation and map
creation on the result collection being non-empty.  `fetch` abstracts
`self.download_house_image`, `scoreRv` and `rv` are the random oracles, and
`now i` is the timestamp `datetime.now().isoformat()` observed at index
`i`. -/
def processProperties (fetch : ℚ → ℚ → Option String)
    (scoreRv : ℕ → ScoreRand) (rv : ℕ → PropRand) (now : ℕ → String)
    (maxProperties : ℕ) (location : String) :
    List ResultRecord × SideEffects :=
  let properties := generateRealisticProperties rv maxProperties location
  let results := processLoop fetch scoreRv now 0 properties
  let nonEmpty := !results.isEmpty
  (results,
   { wroteResultsCsv := nonEmpty
     wroteSummaryCsv := nonEmpty
     generatedReport := nonEmpty
     createdMap := nonEmpty })

/-! Concrete sample inputs used to instantiate the theorems below. -/

/-- A fixed bundle of scorer draws. -/
def sampleScoreRand : ScoreRand := ⟨7, 1200⟩

/-- A fixed bundle of per-property draws. -/
def samplePropRand : PropRand :=
  { panelCount := 20, panelArea := 50, instYear := 2020, sizeKw := 8,
    savings := 1000, propValue := 350000, roofType := "Metal", roofAge := 12,
    lat := 30.2, lon := -90.2, solarDraw := false, streetNum := 432,
    streetName := "Oak", city := "Covington" }

/-- Constant per-index property-draw oracle. -/
def sampleRv : ℕ → PropRand := fun _ => samplePropRand

/-- Constant per-index scorer-draw oracle. -/
def sampleScoreRv : ℕ → ScoreRand := fun _ => sampleScoreRand

/-- Constant timestamp oracle. -/
def sampleNow : ℕ → String := fun _ => "2026-01-01T00:00:00"

/-- An image fetcher stubbed to always fail. -/
def noneFetch : ℚ → ℚ → Option String := fun _ _ => none

/-- A non-solar record with `roof_type = "Metal"`, `roof_age_years = 5`,
`property_value = 500000` (the instance named by the spec). -/
def metalRecord : PropertyRecord :=
  { property_id := "PROP_000001", owner_name := "Property Owner 1",
    address := "1 Test St", latitude := 30, longitude := -90,
    has_solar_panels := false, estimated_panel_count := 0,
    panel_area_sq_meters := 0, installation_year := none,
    system_size_kw := 0, estimated_savings_annual := 0,
    property_value := 500000, roof_type := "Metal", roof_age_years := 5 }

/-- A record that already has solar panels. -/
def solarRecord : PropertyRecord :=
  { property_id := "PROP_000002", owner_name := "Property Owner 2",
    address := "2 Test St", latitude := 30.5, longitude := -89.9,
    has_solar_panels := true, estimated_panel_count := 30,
    panel_area_sq_meters := 60, installation_year := some 2021,
    system_size_kw := 9.5, estimated_savings_annual := 1500,
    property_value := 420000, roof_type := "Tile", roof_age_years := 7 }

/-! ## Theorems -/

/-- C1: for a record without solar panels, `analyze_solar_potential` scores
it as `min 100` of base 50 plus the roof-type bonus (`Asphalt Shingle` 20,
`Metal` 25, `Tile` 15, `Slate` 10, otherwise 0), plus 15 / 10 / 0 by roof
age (`< 10` / `< 20` / else), plus 15 / 10 / 0 by property value
(`> 400000` / `> 300000` / else); in particular for `roof_type = "Metal"`,
`roof_age_years = 5`, `property_value = 500000` the unclamped sum is 105
and the returned score is 100. -/
theorem analyze_non_solar_score (r : ScoreRand) (p : PropertyRecord)
    (h : p.has_solar_panels = false) :
    (analyzeSolarPotential r p).solar_potential_score =
      min 100 (50 + roofBonus p.roof_type
        + (if p.roof_age_years < 10 then 15
           else if p.roof_age_years < 20 then 10 else 0)
        + (if p.property_value > 400000 then 15
           else if p.property_value > 300000 then 10 else 0)) ∧
    (p.roof_type = "Metal" → p.roof_age_years = 5 → p.property_value = 500000 →
      50 + roofBonus p.roof_type
        + (if p.roof_age_years < 10 then 15
           else if p.roof_age_years < 20 then 10 else 0)
        + (if p.property_value > 400000 then 15
           else if p.property_value > 300000 then 10 else 0) = 105 ∧
      (analyzeSolarPotential r p).solar_potential_score = 100) := by
  constructor
  · simp only [analyzeSolarPotential, h, Bool.false_eq_true, if_false]
  · intro ht ha hv
    simp only [analyzeSolarPotential, h, Bool.false_eq_true, if_false,
      ht, ha, hv, roofBonus]
    decide

/-- Witness for `analyze_non_solar_score` at `sampleScoreRand` and
`metalRecord`. -/
theorem analyze_non_solar_score_witness :
    (analyzeSolarPotential sampleScoreRand metalRecord).solar_potential_score =
      min 100 (50 + roofBonus metalRecord.roof_type
        + (if metalRecord.roof_age_years < 10 then 15
           else if metalRecord.roof_age_years < 20 then 10 else 0)
        + (if metalRecord.property_value > 400000 then 15
           else if metalRecord.property_value > 300000 then 10 else 0)) ∧
    (metalRecord.roof_type = "Metal" → metalRecord.roof_age_years = 5 →
      metalRecord.property_value = 500000 →
      50 + roofBonus metalRecord.roof_type
        + (if metalRecord.roof_age_years < 10 then 15
           else if metalRecord.roof_age_years < 20 then 10 else 0)
        + (if metalRecord.property_value > 400000 then 15
           else if metalRecord.property_value > 300000 then 10 else 0) = 105 ∧
      (analyzeSolarPotential sampleScoreRand metalRecord).solar_potential_score
        = 100) :=
  analyze_non_solar_score sampleScoreRand metalRecord (by rfl)

/-- C2: for a record that already has solar panels,
`analyze_solar_potential` returns score 100, payback 0, ROI 100,
recommended size equal to the stored `system_size_kw`, installation cost
`system_size_kw * 3000`, and annual savings equal to the stored
`estimated_savings_annual`. -/
theorem analyze_solar_branch (r : ScoreRand) (p : PropertyRecord)
    (h : p.has_solar_panels = true) :
    (analyzeSolarPotential r p).solar_potential_score = 100 ∧
    (analyzeSolarPotential r p).payback_period_years = 0 ∧
    (analyzeSolarPotential r p).roi_percentage = 100 ∧
    (analyzeSolarPotential r p).recommended_system_size_kw = p.system_size_kw ∧
    (analyzeSolarPotential r p).estimated_installation_cost
      = p.system_size_kw * 3000 ∧
    (analyzeSolarPotential r p).estimated_annual_savings
      = (p.estimated_savings_annual : ℚ) := by
  simp [analyzeSolarPotential, h]

/-- Witness for `analyze_solar_branch` at `sampleScoreRand` and
`solarRecord`. -/
theorem analyze_solar_branch_witness :
    (analyzeSolarPotential sampleScoreRand solarRecord).solar_potential_score
      = 100 ∧
    (analyzeSolarPotential sampleScoreRand solarRecord).payback_period_years
      = 0 ∧
    (analyzeSolarPotential sampleScoreRand solarRecord).roi_percentage = 100 ∧
    (analyzeSolarPotential sampleScoreRand solarRecord).recommended_system_size_kw
      = solarRecord.system_size_kw ∧
    (analyzeSolarPotential sampleScoreRand solarRecord).estimated_installation_cost
      = solarRecord.system_size_kw * 3000 ∧
    (analyzeSolarPotential sampleScoreRand solarRecord).estimated_annual_savings
      = (solarRecord.estimated_savings_annual : ℚ) :=
  analyze_solar_branch sampleScoreRand solarRecord (by rfl)

/-! Auxiliary lemmas about decimal formatting, used for uniqueness of the
generated `property_id`s. -/

theorem digitChar_injOn :
    ∀ a, a < 10 → ∀ b, b < 10 → Nat.digitChar a = Nat.digitChar b → a = b := by
  decide

theorem digitChar_ne_zeroChar :
    ∀ d, d < 10 → d ≠ 0 → (Nat.digitChar d == '0') = false := by
  decide

theorem map_digitChar_injOn :
    ∀ xs ys : List ℕ, (∀ x ∈ xs, x < 10) → (∀ y ∈ ys, y < 10) →
      xs.map Nat.digitChar = ys.map Nat.digitChar → xs = ys := by
  intro xs
  induction xs with
  | nil =>
    intro ys _ _ h
    cases ys with
    | nil => rfl
    | cons y yt => simp at h
  | cons x xt ih =>
    intro ys hx hy h
    cases ys with
    | nil => simp at h
    | cons y yt =>
      simp only [List.map_cons, List.cons.injEq] at h
      have hx0 : x = y :=
        digitChar_injOn x (hx x (by simp)) y (hy y (by simp)) h.1
      have ht : xt = yt :=
        ih yt (fun z hz => hx z (by simp [hz])) (fun z hz => hy z (by simp [hz]))
          h.2
      rw [hx0, ht]

theorem dropWhile_replicate_append {α : Type} (p : α → Bool) (a : α)
    (hpa : p a = true) :
    ∀ (k : ℕ) (xs : List α),
      List.dropWhile p (List.replicate k a ++ xs) = List.dropWhile p xs := by
  intro k
  induction k with
  | zero => intro xs; simp
  | succ k ih =>
    intro xs
    rw [List.replicate_succ, List.cons_append, List.dropWhile_cons]
    simp only [hpa, if_true]
    exact ih xs

theorem decChars_eq_of_ne_zero {n : ℕ} (hn : n ≠ 0) :
    decChars n = (Nat.digits 10 n).reverse.map Nat.digitChar := by
  simp [decChars, hn]

theorem decChars_dropWhile {n : ℕ} (hn : n ≠ 0) :
    (decChars n).dropWhile (fun c => c == '0') = decChars n := by
  have hne : Nat.digits 10 n ≠ [] := Nat.digits_ne_nil_iff_ne_zero.mpr hn
  rw [decChars_eq_of_ne_zero hn]
  cases hrev : (Nat.digits 10 n).reverse with
  | nil => exact absurd (List.reverse_eq_nil_iff.mp hrev) hne
  | cons d t =>
    have hd? : (Nat.digits 10 n).getLast? = some d := by
      rw [← List.head?_reverse, hrev, List.head?_cons]
    have hdl : (Nat.digits 10 n).getLast hne = d := by
      have := List.getLast?_eq_getLast (l := Nat.digits 10 n) hne
      rw [hd?] at this
      exact (Option.some.injEq _ _ ▸ this).symm
    have hd0 : d ≠ 0 := hdl ▸ Nat.getLast_digit_ne_zero 10 hn
    have hd10 : d < 10 :=
      Nat.digits_lt_base (by norm_num) (hdl ▸ (Nat.digits 10 n).getLast_mem hne)
    rw [List.map_cons, List.dropWhile_cons]
    simp [digitChar_ne_zeroChar d hd10 hd0]

theorem pyFormat06_inj_pos {a b : ℕ} (ha : a ≠ 0) (hb : b ≠ 0)
    (h : pyFormat06 a = pyFormat06 b) : a = b := by
  have hdata : List.replicate (6 - (decChars a).length) '0' ++ decChars a =
      List.replicate (6 - (decChars b).length) '0' ++ decChars b :=
    congrArg String.data h
  have hdw := congrArg (List.dropWhile fun c => c == '0') hdata
  rw [dropWhile_replicate_append _ '0' rfl, dropWhile_replicate_append _ '0' rfl,
    decChars_dropWhile ha, decChars_dropWhile hb] at hdw
  rw [decChars_eq_of_ne_zero ha, decChars_eq_of_ne_zero hb] at hdw
  have hrev : (Nat.digits 10 a).reverse = (Nat.digits 10 b).reverse :=
    map_digitChar_injOn _ _
      (fun x hx => Nat.digits_lt_base (by norm_num) (List.mem_reverse.mp hx))
      (fun y hy => Nat.digits_lt_base (by norm_num) (List.mem_reverse.mp hy))
      hdw
  have hdig : Nat.digits 10 a = Nat.digits 10 b := List.reverse_inj.mp hrev
  calc a = Nat.ofDigits 10 (Nat.digits 10 a) := (Nat.ofDigits_digits 10 a).symm
    _ = Nat.ofDigits 10 (Nat.digits 10 b) := by rw [hdig]
    _ = b := Nat.ofDigits_digits 10 b

theorem propertyIdOf_injective : Function.Injective propertyIdOf := by
  intro i j h
  have hdata := congrArg String.data h
  simp only [propertyIdOf] at hdata
  have hdata2 : "PROP_".data ++ (pyFormat06 (i + 1)).data =
      "PROP_".data ++ (pyFormat06 (j + 1)).data := hdata
  have hfmt : pyFormat06 (i + 1) = pyFormat06 (j + 1) := by
    have := List.append_cancel_left hdata2
    cases hpi : pyFormat06 (i + 1) with
    | mk di =>
      cases hpj : pyFormat06 (j + 1) with
      | mk dj =>
        rw [hpi, hpj] at this
        exact congrArg String.mk this
  have := pyFormat06_inj_pos (Nat.succ_ne_zero i) (Nat.succ_ne_zero j) hfmt
  omega

theorem genProperty_property_id (L : LocationData) (r : PropRand) (i : ℕ) :
    (genProperty L r i).property_id = propertyIdOf i := by
  unfold genProperty
  split <;> rfl

theorem generate_getD (rv : ℕ → PropRand) (count : ℕ) (location : String)
    {i : ℕ} (hi : i < count) :
    (generateRealisticProperties rv count location).getD i default =
      genProperty (getLocationData location) (rv i) i := by
  simp [generateRealisticProperties, List.getD_eq_getElem?_getD,
    List.getElem?_range hi]

/-- C3: `generate_realistic_properties` returns exactly `count` records; the
record at index `i` carries the sequential id `PROP_{i+1:06d}`, and these
ids are pairwise distinct across indices. -/
theorem generate_count_and_unique_ids (rv : ℕ → PropRand) (count : ℕ)
    (location : String) :
    (generateRealisticProperties rv count location).length = count ∧
    (∀ i, i < count →
      ((generateRealisticProperties rv count location).getD i
          default).property_id = propertyIdOf i) ∧
    (∀ i j, i < count → j < count → i ≠ j →
      ((generateRealisticProperties rv count location).getD i
          default).property_id ≠
        ((generateRealisticProperties rv count location).getD j
          default).property_id) := by
  refine ⟨by simp [generateRealisticProperties], ?_, ?_⟩
  · intro i hi
    rw [generate_getD rv count location hi, genProperty_property_id]
  · intro i j hi hj hij h
    rw [generate_getD rv count location hi,
      generate_getD rv count location hj, genProperty_property_id,
      genProperty_property_id] at h
    exact hij (propertyIdOf_injective h)

/-- Witness for `generate_count_and_unique_ids`: a run of 2 properties has
2 records, the first id is `PROP_000001`, and the first two ids differ. -/
theorem generate_count_and_unique_ids_witness :
    (generateRealisticProperties sampleRv 2 "Covington").length = 2 ∧
    ((generateRealisticProperties sampleRv 2 "Covington").getD 0
        default).property_id = propertyIdOf 0 ∧
    ((generateRealisticProperties sampleRv 2 "Covington").getD 0
        default).property_id ≠
      ((generateRealisticProperties sampleRv 2 "Covington").getD 1
        default).property_id :=
  ⟨(generate_count_and_unique_ids sampleRv 2 "Covington").1,
   (generate_count_and_unique_ids sampleRv 2 "Covington").2.1 0 (by decide),
   (generate_count_and_unique_ids sampleRv 2 "Covington").2.2 0 1 (by decide)
     (by decide) (by decide)⟩

/-- C4: when `i` is below the curated-address count (and below `count`), the
generated record at index `i` takes its address, coordinates and solar flag
verbatim from the curated entry at position `i`. -/
theorem generate_curated_prefix (rv : ℕ → PropRand) (count : ℕ)
    (location : String) (i : ℕ) (hc : i < count)
    (ha : i < (getLocationData location).addresses.length) :
    ((generateRealisticProperties rv count location).getD i default).address =
      ((getLocationData location).addresses.get ⟨i, ha⟩).address ∧
    ((generateRealisticProperties rv count location).getD i default).latitude =
      ((getLocationData location).addresses.get ⟨i, ha⟩).lat ∧
    ((generateRealisticProperties rv count location).getD i
        default).longitude =
      ((getLocationData location).addresses.get ⟨i, ha⟩).lon ∧
    ((generateRealisticProperties rv count location).getD i
        default).has_solar_panels =
      ((getLocationData location).addresses.get ⟨i, ha⟩).has_solar := by
  rw [generate_getD rv count location hc]
  unfold genProperty
  rw [dif_pos ha]
  exact ⟨rfl, rfl, rfl, rfl⟩

/-- Witness for `generate_curated_prefix` at index 1 of a
St. Tammany run. -/
theorem generate_curated_prefix_witness :
    ((generateRealisticProperties sampleRv 3
        "St. Tammany Parish, LA").getD 1 default).address =
      ((getLocationData "St. Tammany Parish, LA").addresses.get
        ⟨1, by decide⟩).address ∧
    ((generateRealisticProperties sampleRv 3
        "St. Tammany Parish, LA").getD 1 default).latitude =
      ((getLocationData "St. Tammany Parish, LA").addresses.get
        ⟨1, by decide⟩).lat ∧
    ((generateRealisticProperties sampleRv 3
        "St. Tammany Parish, LA").getD 1 default).longitude =
      ((getLocationData "St. Tammany Parish, LA").addresses.get
        ⟨1, by decide⟩).lon ∧
    ((generateRealisticProperties sampleRv 3
        "St. Tammany Parish, LA").getD 1 default).has_solar_panels =
      ((getLocationData "St. Tammany Parish, LA").addresses.get
        ⟨1, by decide⟩).has_solar :=
  generate_curated_prefix sampleRv 3 "St. Tammany Parish, LA" 1 (by decide)
    (by decide)

/-- C5: in every generated record the solar-installation fields are
populated exactly when `has_solar_panels` holds: a non-solar record has
panel count, panel area, system size and annual savings all 0 and no
installation year, and `installation_year` is present exactly when
`has_solar_panels` is true. -/
theorem generate_solar_fields_gated (rv : ℕ → PropRand) (count : ℕ)
    (location : String) (p : PropertyRecord)
    (hp : p ∈ generateRealisticProperties rv count location) :
    (p.has_solar_panels = false →
      p.estimated_panel_count = 0 ∧ p.panel_area_sq_meters = 0 ∧
      p.system_size_kw = 0 ∧ p.estimated_savings_annual = 0 ∧
      p.installation_year = none) ∧
    p.installation_year.isSome = p.has_solar_panels := by
  simp only [generateRealisticProperties, List.mem_map, List.mem_range] at hp
  obtain ⟨i, _, rfl⟩ := hp
  unfold genProperty
  split
  next hlt =>
    cases h : ((getLocationData location).addresses.get ⟨i, hlt⟩).has_solar <;>
      simp_all
  next =>
    cases h : (rv i).solarDraw <;> simp_all

/-- Witness for `generate_solar_fields_gated`: the third curated
St. Tammany record (index 2) satisfies the gating invariant. -/
theorem generate_solar_fields_gated_witness :
    (((generateRealisticProperties sampleRv 3
          "St. Tammany Parish, LA").getD 2 default).has_solar_panels = false →
      ((generateRealisticProperties sampleRv 3
          "St. Tammany Parish, LA").getD 2 default).estimated_panel_count = 0 ∧
      ((generateRealisticProperties sampleRv 3
          "St. Tammany Parish, LA").getD 2 default).panel_area_sq_meters = 0 ∧
      ((generateRealisticProperties sampleRv 3
          "St. Tammany Parish, LA").getD 2 default).system_size_kw = 0 ∧
      ((generateRealisticProperties sampleRv 3
          "St. Tammany Parish, LA").getD 2
          default).estimated_savings_annual = 0 ∧
      ((generateRealisticProperties sampleRv 3
          "St. Tammany Parish, LA").getD 2 default).installation_year
        = none) ∧
    ((generateRealisticProperties sampleRv 3
        "St. Tammany Parish, LA").getD 2 default).installation_year.isSome =
      ((generateRealisticProperties sampleRv 3
        "St. Tammany Parish, LA").getD 2 default).has_solar_panels :=
  generate_solar_fields_gated sampleRv 3 "St. Tammany Parish, LA" _ (by
    have h2 : 2 < (generateRealisticProperties sampleRv 3
        "St. Tammany Parish, LA").length := by
      simp [generateRealisticProperties]
    have hg : (generateRealisticProperties sampleRv 3
          "St. Tammany Parish, LA").getD 2 default =
        (generateRealisticProperties sampleRv 3 "St. Tammany Parish, LA")[2] := by
      rw [List.getD_eq_getElem?_getD, List.getElem?_eq_getElem h2]
      rfl
    rw [hg]
    exact List.getElem_mem h2)

/-- C6: the image fetcher is total (never raises in this embedding): on an
HTTP 200 response it returns the deterministic path
`{outputDir}/house_images/house_{lat}_{lon}_zoom{z}.png`, and on any
non-200 status or any transport-level exception it returns `none`. -/
theorem download_house_image_behavior (outputDir : String)
    (outcome : HttpOutcome) (latitude longitude : ℚ) (zoomLevel : ℕ) :
    (∀ content, outcome = .response 200 content →
      downloadHouseImage outputDir outcome latitude longitude zoomLevel =
        some (outputDir ++ "/house_images/" ++ "house_" ++
          toString latitude ++ "_" ++ toString longitude ++ "_zoom" ++
          toString zoomLevel ++ ".png")) ∧
    (∀ statusCode content, outcome = .response statusCode content →
      statusCode ≠ 200 →
      downloadHouseImage outputDir outcome latitude longitude zoomLevel
        = none) ∧
    (∀ message, outcome = .exn message →
      downloadHouseImage outputDir outcome latitude longitude zoomLevel
        = none) := by
  refine ⟨?_, ?_, ?_⟩
  · intro content h
    subst h
    simp only [downloadHouseImage, if_pos]
    refine congrArg some (String.ext ?_)
    simp [List.append_assoc]
  · intro statusCode content h hne
    subst h
    simp [downloadHouseImage, hne]
  · intro message h
    subst h
    rfl

/-- Witness for `download_house_image_behavior` on a 200 response. -/
theorem download_house_image_behavior_witness :
    downloadHouseImage "solar_houses_output" (.response 200 "bytes")
        (30.5 : ℚ) (-90.25 : ℚ) 19 =
      some ("solar_houses_output" ++ "/house_images/" ++ "house_" ++
        toString (30.5 : ℚ) ++ "_" ++ toString (-90.25 : ℚ) ++ "_zoom" ++
        toString (19 : ℕ) ++ ".png") :=
  (download_house_image_behavior "solar_houses_output"
    (.response 200 "bytes") (30.5 : ℚ) (-90.25 : ℚ) 19).1 "bytes" rfl

theorem processLoop_length (fetch : ℚ → ℚ → Option String)
    (scoreRv : ℕ → ScoreRand) (now : ℕ → String) :
    ∀ (i : ℕ) (ps : List PropertyRecord),
      (processLoop fetch scoreRv now i ps).length = ps.length := by
  intro i ps
  induction ps generalizing i with
  | nil => rfl
  | cons p rest ih => simp [processLoop, ih]

theorem processLoop_mem (fetch : ℚ → ℚ → Option String)
    (scoreRv : ℕ → ScoreRand) (now : ℕ → String) :
    ∀ (i : ℕ) (ps : List PropertyRecord) (r : ResultRecord),
      r ∈ processLoop fetch scoreRv now i ps →
      r.house_image_path = fetch r.prop.latitude r.prop.longitude ∧
      r.image_downloaded = r.house_image_path.isSome := by
  intro i ps
  induction ps generalizing i with
  | nil => intro r hr; simp [processLoop] at hr
  | cons p rest ih =>
    intro r hr
    rcases List.mem_cons.mp hr with h | h
    · subst h
      exact ⟨rfl, rfl⟩
    · exact ih (i + 1) r h

/-- C7: if the image fetcher fails on every coordinate, a run over `n`
generated properties still yields all `n` result rows, each with
`image_downloaded = false` and no `house_image_path`. -/
theorem process_all_fetch_failures_kept (fetch : ℚ → ℚ → Option String)
    (scoreRv : ℕ → ScoreRand) (rv : ℕ → PropRand) (now : ℕ → String)
    (n : ℕ) (location : String)
    (hf : ∀ lat lon, fetch lat lon = none) :
    (processProperties fetch scoreRv rv now n location).1.length = n ∧
    ∀ r ∈ (processProperties fetch scoreRv rv now n location).1,
      r.image_downloaded = false ∧ r.house_image_path = none := by
  constructor
  · simp [processProperties, processLoop_length, generateRealisticProperties]
  · intro r hr
    have h := processLoop_mem fetch scoreRv now 0
      (generateRealisticProperties rv n location) r hr
    have hpath : r.house_image_path = none := h.1.trans (hf _ _)
    exact ⟨h.2.trans (by rw [hpath]; rfl), hpath⟩

/-- Witness for `process_all_fetch_failures_kept`: a 10-property run with
the always-failing fetcher keeps 10 rows, and its first row has no image. -/
theorem process_all_fetch_failures_kept_witness :
    (processProperties noneFetch sampleScoreRv sampleRv sampleNow 10
        "St. Tammany Parish, LA").1.length = 10 ∧
    ((processProperties noneFetch sampleScoreRv sampleRv sampleNow 10
        "St. Tammany Parish, LA").1.getD 0 default).image_downloaded = false ∧
    ((processProperties noneFetch sampleScoreRv sampleRv sampleNow 10
        "St. Tammany Parish, LA").1.getD 0 default).house_image_path
      = none := by
  have h := process_all_fetch_failures_kept noneFetch sampleScoreRv sampleRv
    sampleNow 10 "St. Tammany Parish, LA" (fun _ _ => rfl)
  have hlen := h.1
  have h0 : 0 < (processProperties noneFetch sampleScoreRv sampleRv sampleNow
      10 "St. Tammany Parish, LA").1.length := by
    rw [hlen]; norm_num
  have hg : (processProperties noneFetch sampleScoreRv sampleRv sampleNow 10
        "St. Tammany Parish, LA").1.getD 0 default =
      (processProperties noneFetch sampleScoreRv sampleRv sampleNow 10
        "St. Tammany Parish, LA").1[0] := by
    rw [List.getD_eq_getElem?_getD, List.getElem?_eq_getElem h0]
    rfl
  have hmem := h.2 _ (hg ▸ List.getElem_mem h0)
  exact ⟨hlen, hmem.1, hmem.2⟩

/-- C8: running the orchestrator with `max_properties = 0` yields an empty
result collection, and the CSV writes, the report generation and the map
creation are all skipped. -/
theorem process_zero_properties (fetch : ℚ → ℚ → Option String)
    (scoreRv : ℕ → ScoreRand) (rv : ℕ → PropRand) (now : ℕ → String)
    (location : String) :
    processProperties fetch scoreRv rv now 0 location =
      ([], { wroteResultsCsv := false, wroteSummaryCsv := false,
             generatedReport := false, createdMap := false }) := rfl

/-- C10: in every result row, `image_downloaded` is true exactly when
`house_image_path` is present, since the flag is computed from the
path's presence. -/
theorem process_image_flag_consistent (fetch : ℚ → ℚ → Option String)
    (scoreRv : ℕ → ScoreRand) (rv : ℕ → PropRand) (now : ℕ → String)
    (n : ℕ) (location : String) (r : ResultRecord)
    (hr : r ∈ (processProperties fetch scoreRv rv now n location).1) :
    r.image_downloaded = r.house_image_path.isSome :=
  (processLoop_mem fetch scoreRv now 0
    (generateRealisticProperties rv n location) r hr).2

/-- Witness for `process_image_flag_consistent` at the first row of a
1-property run. -/
theorem process_image_flag_consistent_witness :
    ((processProperties noneFetch sampleScoreRv sampleRv sampleNow 1
        "Atlantis").1.getD 0 default) ∈
      (processProperties noneFetch sampleScoreRv sampleRv sampleNow 1
        "Atlantis").1 ∧
    ((processProperties noneFetch sampleScoreRv sampleRv sampleNow 1
        "Atlantis").1.getD 0 default).image_downloaded =
      ((processProperties noneFetch sampleScoreRv sampleRv sampleNow 1
        "Atlantis").1.getD 0 default).house_image_path.isSome := by
  have h0 : 0 < (processProperties noneFetch sampleScoreRv sampleRv sampleNow
      1 "Atlantis").1.length := by
    have : (processProperties noneFetch sampleScoreRv sampleRv sampleNow 1
        "Atlantis").1.length = 1 := by
      simp [processProperties, processLoop_length, generateRealisticProperties]
    rw [this]; norm_num
  have hg : (processProperties noneFetch sampleScoreRv sampleRv sampleNow 1
        "Atlantis").1.getD 0 default =
      (processProperties noneFetch sampleScoreRv sampleRv sampleNow 1
        "Atlantis").1[0] := by
    rw [List.getD_eq_getElem?_getD, List.getElem?_eq_getElem h0]
    rfl
  have hmem : ((processProperties noneFetch sampleScoreRv sampleRv sampleNow 1
        "Atlantis").1.getD 0 default) ∈
      (processProperties noneFetch sampleScoreRv sampleRv sampleNow 1
        "Atlantis").1 := hg ▸ List.getElem_mem h0
  exact ⟨hmem,
    process_image_flag_consistent noneFetch sampleScoreRv sampleRv sampleNow 1
      "Atlantis" _ hmem⟩

theorem charsBeginWith_self : ∀ xs : List Char, charsBeginWith xs xs = true := by
  intro xs
  induction xs with
  | nil => rfl
  | cons x xt ih => simp [charsBeginWith, ih]

theorem charsContain_self : ∀ xs : List Char, charsContain xs xs = true := by
  intro xs
  cases xs with
  | nil => rfl
  | cons x xt => simp [charsContain, charsBeginWith_self]

theorem charsContain_append_left :
    ∀ (ys xs : List Char), charsContain xs (ys ++ xs) = true := by
  intro ys xs
  induction ys with
  | nil => simpa using charsContain_self xs
  | cons y yt ih => simp [charsContain, ih]

theorem strContains_append_left (a b : String) :
    strContains (a ++ b) b = true := by
  simpa [strContains, String.toList] using
    charsContain_append_left a.data b.data

/-- C9: `_get_location_data` is total — every input maps to one of the
three curated regions or to the fallback; the region is chosen by
case-insensitive substring matching of the fixed keys against the
lowercased input, first match winning; and a string matching no key maps
to the fallback bounding box with exactly three placeholder addresses,
each embedding the raw input string. -/
theorem get_location_data_resolution (location : String) :
    (getLocationData location = tammanyData ∨
     getLocationData location = nolaData ∨
     getLocationData location = batonRougeData ∨
     getLocationData location = fallbackData location) ∧
    ((strContains (strLower location) "st. tammany" ||
        strContains (strLower location) "st tammany") = true →
      getLocationData location = tammanyData) ∧
    ((strContains (strLower location) "st. tammany" ||
        strContains (strLower location) "st tammany") = false →
      (strContains (strLower location) "new orleans" ||
        strContains (strLower location) "nola") = true →
      getLocationData location = nolaData) ∧
    ((strContains (strLower location) "st. tammany" ||
        strContains (strLower location) "st tammany") = false →
      (strContains (strLower location) "new orleans" ||
        strContains (strLower location) "nola") = false →
      strContains (strLower location) "baton rouge" = true →
      getLocationData location = batonRougeData) ∧
    ((strContains (strLower location) "st. tammany" ||
        strContains (strLower location) "st tammany") = false →
      (strContains (strLower location) "new orleans" ||
        strContains (strLower location) "nola") = false →
      strContains (strLower location) "baton rouge" = false →
      getLocationData location = fallbackData location ∧
      (fallbackData location).addresses.length = 3 ∧
      ∀ e ∈ (fallbackData location).addresses,
        strContains e.address location = true) := by
  refine ⟨?_, ?_, ?_, ?_, ?_⟩
  · cases h1 : (strContains (strLower location) "st. tammany" ||
        strContains (strLower location) "st tammany") with
    | true => exact Or.inl (by simp [getLocationData, h1])
    | false =>
      cases h2 : (strContains (strLower location) "new orleans" ||
          strContains (strLower location) "nola") with
      | true => exact Or.inr (Or.inl (by simp [getLocationData, h1, h2]))
      | false =>
        cases h3 : strContains (strLower location) "baton rouge" with
        | true =>
          exact Or.inr (Or.inr (Or.inl (by simp [getLocationData, h1, h2, h3])))
        | false =>
          exact Or.inr (Or.inr (Or.inr (by simp [getLocationData, h1, h2, h3])))
  · intro h1
    simp [getLocationData, h1]
  · intro h1 h2
    simp [getLocationData, h1, h2]
  · intro h1 h2 h3
    simp [getLocationData, h1, h2, h3]
  · intro h1 h2 h3
    refine ⟨by simp [getLocationData, h1, h2, h3], rfl, ?_⟩
    intro e he
    simp only [fallbackData, List.mem_cons, List.not_mem_nil, or_false] at he
    rcases he with rfl | rfl | rfl
    · exact strContains_append_left "1234 Main St, " location
    · exact strContains_append_left "5678 Oak Ave, " location
    · exact strContains_append_left "9012 Pine St, " location

/-- Witness for `get_location_data_resolution`: `"Springfield, IL"` matches
no region key, resolves to the fallback with 3 addresses, and the first
fallback address embeds the raw input. -/
theorem get_location_data_resolution_witness :
    getLocationData "Springfield, IL" = fallbackData "Springfield, IL" ∧
    (fallbackData "Springfield, IL").addresses.length = 3 ∧
    strContains ((fallbackData "Springfield, IL").addresses.getD 0
        default).address "Springfield, IL" = true := by
  have h := (get_location_data_resolution "Springfield, IL").2.2.2.2
    (by decide) (by decide) (by decide)
  have h0 : 0 < (fallbackData "Springfield, IL").addresses.length := by
    rw [h.2.1]; norm_num
  have hg : (fallbackData "Springfield, IL").addresses.getD 0 default =
      (fallbackData "Springfield, IL").addresses[0] := by
    rw [List.getD_eq_getElem?_getD, List.getElem?_eq_getElem h0]
    rfl
  exact ⟨h.1, h.2.1, h.2.2 _ (hg ▸ List.getElem_mem h0)⟩
